import Mathlib

/-!
Shallow embedding of the reconciliation logic of the Incus Ansible modules
(`incus_network_acl`, `incus_network_zone`, `incus_network_forward`,
`incus_network_load_balancer`, `incus_network_peer`).  Python dict/list/str
values are modelled by `Value`; the REST transport (`IncusClient.query_raw`)
is an external collaborator and is modelled as an oracle: each `run`
receives the results of its (up to) two GETs and of its single write as
`Except String Response` arguments, where an `error` is an
`IncusClientException` with the given message.
-/

/-- Python-like JSON values carried in payloads and response metadata. -/
inductive Value where
  | null : Value
  | bool : Bool → Value
  | int : Int → Value
  | str : String → Value
  | list : List Value → Value
  | dict : List (String × Value) → Value

mutual

/-- Structural equality test on `Value` (Python `==` on these values). -/
def valueBeq : Value → Value → Bool
  | .null, .null => true
  | .bool a, .bool b => a == b
  | .int a, .int b => a == b
  | .str a, .str b => a == b
  | .list a, .list b => valueListBeq a b
  | .dict a, .dict b => valueDictBeq a b
  | _, _ => false

def valueListBeq : List Value → List Value → Bool
  | [], [] => true
  | a :: as, b :: bs => valueBeq a b && valueListBeq as bs
  | _, _ => false

def valueDictBeq : List (String × Value) → List (String × Value) → Bool
  | [], [] => true
  | (k1, v1) :: as, (k2, v2) :: bs => k1 == k2 && valueBeq v1 v2 && valueDictBeq as bs
  | _, _ => false

end

mutual

theorem valueBeq_refl : ∀ a : Value, valueBeq a a = true
  | .null => rfl
  | .bool b => by simp [valueBeq]
  | .int n => by simp [valueBeq]
  | .str s => by simp [valueBeq]
  | .list l => by simp [valueBeq, valueListBeq_refl l]
  | .dict l => by simp [valueBeq, valueDictBeq_refl l]

theorem valueListBeq_refl : ∀ l : List Value, valueListBeq l l = true
  | [] => rfl
  | v :: r => by simp [valueListBeq, valueBeq_refl v, valueListBeq_refl r]

theorem valueDictBeq_refl : ∀ l : List (String × Value), valueDictBeq l l = true
  | [] => rfl
  | (k, v) :: r => by simp [valueDictBeq, valueBeq_refl v, valueDictBeq_refl r]

end

mutual

theorem valueBeq_eq : ∀ a b : Value, valueBeq a b = true → a = b
  | .null, .null, _ => rfl
  | .null, .bool _, h => by simp [valueBeq] at h
  | .null, .int _, h => by simp [valueBeq] at h
  | .null, .str _, h => by simp [valueBeq] at h
  | .null, .list _, h => by simp [valueBeq] at h
  | .null, .dict _, h => by simp [valueBeq] at h
  | .bool _, .null, h => by simp [valueBeq] at h
  | .bool a, .bool b, h => by simp [valueBeq] at h; simp [h]
  | .bool _, .int _, h => by simp [valueBeq] at h
  | .bool _, .str _, h => by simp [valueBeq] at h
  | .bool _, .list _, h => by simp [valueBeq] at h
  | .bool _, .dict _, h => by simp [valueBeq] at h
  | .int _, .null, h => by simp [valueBeq] at h
  | .int _, .bool _, h => by simp [valueBeq] at h
  | .int a, .int b, h => by simp [valueBeq] at h; simp [h]
  | .int _, .str _, h => by simp [valueBeq] at h
  | .int _, .list _, h => by simp [valueBeq] at h
  | .int _, .dict _, h => by simp [valueBeq] at h
  | .str _, .null, h => by simp [valueBeq] at h
  | .str _, .bool _, h => by simp [valueBeq] at h
  | .str _, .int _, h => by simp [valueBeq] at h
  | .str a, .str b, h => by simp [valueBeq] at h; simp [h]
  | .str _, .list _, h => by simp [valueBeq] at h
  | .str _, .dict _, h => by simp [valueBeq] at h
  | .list _, .null, h => by simp [valueBeq] at h
  | .list _, .bool _, h => by simp [valueBeq] at h
  | .list _, .int _, h => by simp [valueBeq] at h
  | .list _, .str _, h => by simp [valueBeq] at h
  | .list a, .list b, h => by
      simp only [valueBeq] at h
      rw [valueListBeq_eq a b h]
  | .list _, .dict _, h => by simp [valueBeq] at h
  | .dict _, .null, h => by simp [valueBeq] at h
  | .dict _, .bool _, h => by simp [valueBeq] at h
  | .dict _, .int _, h => by simp [valueBeq] at h
  | .dict _, .str _, h => by simp [valueBeq] at h
  | .dict _, .list _, h => by simp [valueBeq] at h
  | .dict a, .dict b, h => by
      simp only [valueBeq] at h
      rw [valueDictBeq_eq a b h]

theorem valueListBeq_eq : ∀ a b : List Value, valueListBeq a b = true → a = b
  | [], [], _ => rfl
  | [], _ :: _, h => by simp [valueListBeq] at h
  | _ :: _, [], h => by simp [valueListBeq] at h
  | a :: as, b :: bs, h => by
      simp only [valueListBeq, Bool.and_eq_true] at h
      rw [valueBeq_eq a b h.1, valueListBeq_eq as bs h.2]

theorem valueDictBeq_eq : ∀ a b : List (String × Value), valueDictBeq a b = true → a = b
  | [], [], _ => rfl
  | [], _ :: _, h => by simp [valueDictBeq] at h
  | _ :: _, [], h => by simp [valueDictBeq] at h
  | (k1, v1) :: as, (k2, v2) :: bs, h => by
      simp only [valueDictBeq, Bool.and_eq_true, beq_iff_eq] at h
      rw [h.1.1, valueBeq_eq v1 v2 h.1.2, valueDictBeq_eq as bs h.2]

end

instance : DecidableEq Value := fun a b =>
  if h : valueBeq a b = true then .isTrue (valueBeq_eq a b h)
  else .isFalse (fun he => h (he ▸ valueBeq_refl a))

/-- Python truthiness of a `Value` (used by `x or y` and `if x:`). -/
def pyTruthy : Value → Bool
  | .null => false
  | .bool b => b
  | .int n => n != 0
  | .str s => s != ""
  | .list l => !l.isEmpty
  | .dict l => !l.isEmpty

/-- Python `x or y`. -/
def pyOr (a b : Value) : Value := if pyTruthy a then a else b

mutual

/-- Python `repr` of a `Value` (scalars exactly; containers in Python's
rendering for strings without special characters). -/
def pyRepr : Value → String
  | .null => "None"
  | .bool b => if b then "True" else "False"
  | .int n => toString n
  | .str s => "\x27" ++ s ++ "\x27"
  | .list l => "[" ++ pyReprItems l ++ "]"
  | .dict l => "\x7b" ++ pyReprPairs l ++ "\x7d"

def pyReprItems : List Value → String
  | [] => ""
  | [v] => pyRepr v
  | v :: r => pyRepr v ++ ", " ++ pyReprItems r

def pyReprPairs : List (String × Value) → String
  | [] => ""
  | [(k, v)] => "\x27" ++ k ++ "\x27: " ++ pyRepr v
  | (k, v) :: r => "\x27" ++ k ++ "\x27: " ++ pyRepr v ++ ", " ++ pyReprPairs r

end

/-- Python `str()` of a `Value`. -/
def pyStr : Value → String
  | .str s => s
  | v => pyRepr v

/-- Lookup of a key in a Python dict (modelled as an association list). -/
def dictGet (k : String) : List (String × Value) → Option Value
  | [] => none
  | (k2, v) :: rest => if k2 = k then some v else dictGet k rest

/-- `\x7b**d, k: v\x7d`: replace the value at `k` in place, append if absent. -/
def dictSet (k : String) (v : Value) : List (String × Value) → List (String × Value)
  | [] => [(k, v)]
  | (k2, w) :: rest => if k2 = k then (k2, v) :: rest else (k2, w) :: dictSet k v rest

/-- A successful `query_raw` result: `status_code`, `error_code`, `metadata`. -/
structure Response where
  status_code : Int
  error_code : Int
  metadata : Value
deriving DecidableEq

/-- Exceptions that can escape the per-module action code: an
`IncusClientException` (caught by `run`'s handler) or a plain Python
exception such as `Exception(...)` or `KeyError` (not caught). -/
inductive PyErr where
  | client (msg : String)
  | exn (msg : String)
deriving DecidableEq

/-- A write request issued through the transport. -/
structure Call where
  method : String
  url : String
  payload : Option Value
deriving DecidableEq

/-- One side of the `diff` dict; keys are absent (`none`) until assigned. -/
structure DiffSide where
  resource : Option Value := none
  state : Option String := none
deriving DecidableEq

/-- The `self.diff = \x7b'before': \x7b\x7d, 'after': \x7b\x7d\x7d` record. -/
structure Diff where
  before : DiffSide := {}
  after : DiffSide := {}
deriving DecidableEq

/-- Outcome of `run()`: `module.exit_json`, `module.fail_json` (which always
passes `changed=False`), or an exception escaping the `except
IncusClientException` handler. -/
inductive RunOutcome where
  | exit (changed : Bool) (old_state : String) (diff : Diff) (resource : Value)
  | fail (msg : String) (changed : Bool) (diff : Diff)
  | crash (e : PyErr)
deriving DecidableEq

/-- `_incus_to_module_state` (identical in all five modules): status 200 →
present, else error 404 → absent, else `raise Exception("unknown resource
state")`. -/
def incusToModuleState (resp : Response) : Except PyErr String :=
  if resp.status_code = 200 then .ok "present"
  else if resp.error_code = 404 then .ok "absent"
  else .error (.exn "unknown resource state")

/-!
`run()` is textually identical in all five modules (up to the resource key
under which the metadata is reported, abstracted by `DiffSide.resource`):
first GET, set `diff['before']`, dispatch the action via `ACTION_DISPATCH`,
second GET, set `diff['after']`, compare the two metadata values, and
`exit_json`; an `IncusClientException` anywhere in the `try` block leads to
`fail_json(msg, changed=False, diff)`; any other exception is uncaught.
The per-module action decides which single write `Call` to issue (`none` in
check mode or when converging `absent` on an absent resource); `run` issues
it and `writeRes` is the transport's answer.
-/
def runReconcile (action : String → Except PyErr (Option Call))
    (fetch1 fetch2 writeRes : Except String Response) : RunOutcome × List Call :=
  match fetch1 with
  | .error msg => (.fail msg false {}, [])
  | .ok cur1 =>
    match incusToModuleState cur1 with
    | .error e => (.crash e, [])
    | .ok st1 =>
      let diff1 : Diff :=
        { before := { resource := some cur1.metadata, state := some st1 }, after := {} }
      match action st1 with
      | .error e => (.crash e, [])
      | .ok optCall =>
        let writes := optCall.toList
        match optCall, writeRes with
        | some _, .error msg => (.fail msg false diff1, writes)
        | _, _ =>
          match fetch2 with
          | .error msg => (.fail msg false diff1, writes)
          | .ok cur2 =>
            match incusToModuleState cur2 with
            | .error e => (.crash e, writes)
            | .ok st2 =>
              let diff2 : Diff :=
                { diff1 with after := { resource := some cur2.metadata, state := some st2 } }
              (.exit (if cur1.metadata = cur2.metadata then false else true)
                 st1 diff2 cur2.metadata, writes)

/-! ### incus_network_acl -/

/-- `_get_acl`'s URL: `/1.0/network-acls/{name}`. -/
def aclGetUrl (name : String) : String := "/1.0/network-acls/" ++ name

/-- `IncusNetworkAclManagement._present`. -/
def aclPresent (beforeState : String) (checkMode : Bool) (name : String)
    (config description egress ingress : Value) : Except PyErr (Option Call) := do
  let method := if beforeState = "present" then "PATCH" else "POST"
  let payload : Value := .dict [
    ("name", .str name),
    ("config", config),
    ("description", description),
    ("egress", egress),
    ("ingress", ingress)]
  let url ← match method with
    | "POST" => pure "/1.0/network-acls"
    | "PATCH" => pure (aclGetUrl name)
    | _ => throw (.exn "invalid state")
  if checkMode then return none
  return some ⟨method, url, some payload⟩

/-- `IncusNetworkAclManagement._absent`. -/
def aclAbsent (beforeState : String) (checkMode : Bool) (name : String) : Option Call :=
  if beforeState = "absent" then none
  else if checkMode then none
  else some ⟨"DELETE", aclGetUrl name, none⟩

/-- `ACTION_DISPATCH[self.state]` followed by the call of the handler; a key
outside the dispatch map raises `KeyError`. -/
def aclAction (state beforeState : String) (checkMode : Bool) (name : String)
    (config description egress ingress : Value) : Except PyErr (Option Call) :=
  match state with
  | "present" => aclPresent beforeState checkMode name config description egress ingress
  | "absent" => .ok (aclAbsent beforeState checkMode name)
  | _ => .error (.exn ("KeyError: " ++ state))

/-- `IncusNetworkAclManagement.run`. -/
def aclRun (checkMode : Bool) (state name : String)
    (config description egress ingress : Value)
    (fetch1 fetch2 writeRes : Except String Response) : RunOutcome × List Call :=
  runReconcile
    (fun st => aclAction state st checkMode name config description egress ingress)
    fetch1 fetch2 writeRes

/-! ### incus_network_zone -/

/-- `_get_network_zone`'s URL: `/1.0/network-zones/{name}`. -/
def zoneGetUrl (name : String) : String := "/1.0/network-zones/" ++ name

/-- `IncusNetworkZoneManagement._present`. -/
def zonePresent (beforeState : String) (checkMode : Bool) (name : String)
    (description config : Value) : Except PyErr (Option Call) := do
  let method := if beforeState = "present" then "PATCH" else "POST"
  let payload : Value := .dict [
    ("name", .str name),
    ("description", description),
    ("config", config)]
  let url ← match method with
    | "POST" => pure "/1.0/network-zones"
    | "PATCH" => pure (zoneGetUrl name)
    | _ => throw (.exn "invalid state")
  if checkMode then return none
  return some ⟨method, url, some payload⟩

/-- `IncusNetworkZoneManagement._absent`. -/
def zoneAbsent (beforeState : String) (checkMode : Bool) (name : String) : Option Call :=
  if beforeState = "absent" then none
  else if checkMode then none
  else some ⟨"DELETE", zoneGetUrl name, none⟩

/-- Zone action dispatch. -/
def zoneAction (state beforeState : String) (checkMode : Bool) (name : String)
    (description config : Value) : Except PyErr (Option Call) :=
  match state with
  | "present" => zonePresent beforeState checkMode name description config
  | "absent" => .ok (zoneAbsent beforeState checkMode name)
  | _ => .error (.exn ("KeyError: " ++ state))

/-- `IncusNetworkZoneManagement.run`. -/
def zoneRun (checkMode : Bool) (state name : String) (description config : Value)
    (fetch1 fetch2 writeRes : Except String Response) : RunOutcome × List Call :=
  runReconcile
    (fun st => zoneAction state st checkMode name description config)
    fetch1 fetch2 writeRes

/-! ### incus_network_forward -/

/-- `_get_network_forwards`'s URL: `/1.0/networks/{network}/forwards` — the
collection path, with no `listen_address` component. -/
def forwardGetUrl (network : String) : String :=
  "/1.0/networks/" ++ network ++ "/forwards"

/-- `_present`'s POST URL: `/1.0/network/{network}/forwards` (singular
`network`). -/
def forwardPostUrl (network : String) : String :=
  "/1.0/network/" ++ network ++ "/forwards"

/-- The PATCH/DELETE URL used in `_present` and `_absent`:
`/1.0/network/{network}/forwards/{listen_address}` (singular `network`). -/
def forwardItemWriteUrl (network listen_address : String) : String :=
  "/1.0/network/" ++ network ++ "/forwards/" ++ listen_address

/-- `IncusNetworkForwardManagement._present`. -/
def forwardPresent (beforeState : String) (checkMode : Bool)
    (network listen_address : String) (description config ports : Value) :
    Except PyErr (Option Call) := do
  let method := if beforeState = "present" then "PATCH" else "POST"
  let payload : Value := .dict [
    ("listen_address", .str listen_address),
    ("description", description),
    ("config", pyOr config (.dict [])),
    ("ports", pyOr ports (.list []))]
  let url ← match method with
    | "POST" => pure (forwardPostUrl network)
    | "PATCH" => pure (forwardItemWriteUrl network listen_address)
    | _ => throw (.exn "invalid state")
  if checkMode then return none
  return some ⟨method, url, some payload⟩

/-- `IncusNetworkForwardManagement._absent`. -/
def forwardAbsent (beforeState : String) (checkMode : Bool)
    (network listen_address : String) : Option Call :=
  if beforeState = "absent" then none
  else if checkMode then none
  else some ⟨"DELETE", forwardItemWriteUrl network listen_address, none⟩

/-- Forward action dispatch. -/
def forwardAction (state beforeState : String) (checkMode : Bool)
    (network listen_address : String) (description config ports : Value) :
    Except PyErr (Option Call) :=
  match state with
  | "present" => forwardPresent beforeState checkMode network listen_address description config ports
  | "absent" => .ok (forwardAbsent beforeState checkMode network listen_address)
  | _ => .error (.exn ("KeyError: " ++ state))

/-- `IncusNetworkForwardManagement.run`. -/
def forwardRun (checkMode : Bool) (state network listen_address : String)
    (description config ports : Value)
    (fetch1 fetch2 writeRes : Except String Response) : RunOutcome × List Call :=
  runReconcile
    (fun st => forwardAction state st checkMode network listen_address description config ports)
    fetch1 fetch2 writeRes

/-! ### incus_network_load_balancer -/

/-- `_get_lb`'s URL (also PATCH/DELETE):
`/1.0/networks/{network}/load-balancers/{listen_address}`. -/
def lbGetUrl (network listen_address : String) : String :=
  "/1.0/networks/" ++ network ++ "/load-balancers/" ++ listen_address

/-- The POST URL: `/1.0/networks/{network}/load-balancers`. -/
def lbPostUrl (network : String) : String :=
  "/1.0/networks/" ++ network ++ "/load-balancers"

/-- One element of the `ports` comprehension in `_present`:
`\x7b**port, 'listen_port': str(port['listen_port'])\x7d`; a port mapping
lacking `listen_port` raises `KeyError`. -/
def lbCoercePort (port : List (String × Value)) : Except PyErr (List (String × Value)) :=
  match dictGet "listen_port" port with
  | none => .error (.exn "KeyError: listen_port")
  | some v => .ok (dictSet "listen_port" (.str (pyStr v)) port)

/-- `IncusNetworkLoadBalancerManagement._present`.  The port coercion is
evaluated while the payload dict literal is built, before the URL dispatch
and before the check-mode test. -/
def lbPresent (beforeState : String) (checkMode : Bool)
    (network listen_address : String) (description config backends : Value)
    (ports : List (List (String × Value))) : Except PyErr (Option Call) := do
  let method := if beforeState = "present" then "PATCH" else "POST"
  let portsPayload ← ports.mapM lbCoercePort
  let payload : Value := .dict [
    ("listen_address", .str listen_address),
    ("description", description),
    ("network", .str network),
    ("config", config),
    ("backends", backends),
    ("ports", .list (portsPayload.map Value.dict))]
  let url ← match method with
    | "POST" => pure (lbPostUrl network)
    | "PATCH" => pure (lbGetUrl network listen_address)
    | _ => throw (.exn "invalid state")
  if checkMode then return none
  return some ⟨method, url, some payload⟩

/-- `IncusNetworkLoadBalancerManagement._absent`. -/
def lbAbsent (beforeState : String) (checkMode : Bool)
    (network listen_address : String) : Option Call :=
  if beforeState = "absent" then none
  else if checkMode then none
  else some ⟨"DELETE", lbGetUrl network listen_address, none⟩

/-- Load-balancer action dispatch. -/
def lbAction (state beforeState : String) (checkMode : Bool)
    (network listen_address : String) (description config backends : Value)
    (ports : List (List (String × Value))) : Except PyErr (Option Call) :=
  match state with
  | "present" => lbPresent beforeState checkMode network listen_address description config backends ports
  | "absent" => .ok (lbAbsent beforeState checkMode network listen_address)
  | _ => .error (.exn ("KeyError: " ++ state))

/-- `IncusNetworkLoadBalancerManagement.run`. -/
def lbRun (checkMode : Bool) (state network listen_address : String)
    (description config backends : Value) (ports : List (List (String × Value)))
    (fetch1 fetch2 writeRes : Except String Response) : RunOutcome × List Call :=
  runReconcile
    (fun st => lbAction state st checkMode network listen_address description config backends ports)
    fetch1 fetch2 writeRes

/-! ### incus_network_peer -/

/-- `_get_peer`'s URL (also PATCH/DELETE):
`/1.0/networks/{network}/peers/{name}`. -/
def peerGetUrl (network name : String) : String :=
  "/1.0/networks/" ++ network ++ "/peers/" ++ name

/-- The POST URL: `/1.0/networks/{network}/peers`. -/
def peerPostUrl (network : String) : String :=
  "/1.0/networks/" ++ network ++ "/peers"

/-- `if self.x: payload['k'] = self.x` for an optional string parameter
(`None` and the empty string are falsy). -/
def optEntry (k : String) : Option String → List (String × Value)
  | none => []
  | some s => if s = "" then [] else [(k, .str s)]

/-- `IncusNetworkPeerManagement._present`.  Returns the write to issue (if
any) and the entry appended to `self.actions` after the write returns
(reached only when no exception was raised). -/
def peerPresent (beforeState : String) (checkMode : Bool) (network name : String)
    (config description : Value) (target_network : String)
    (target_project target_integration type_ : Option String) :
    Option Call × List String :=
  let method := if beforeState = "present" then "PATCH" else "POST"
  let payload : List (String × Value) :=
    [("name", .str name), ("config", config), ("description", description)]
      ++ (if target_network = "" then []
          else [("target_network", .str target_network)]
            ++ optEntry "target_project" target_project)
      ++ optEntry "target_integration" target_integration
      ++ optEntry "type" type_
  let url := if method = "POST" then peerPostUrl network else peerGetUrl network name
  let res : Option Call := if checkMode then none else some ⟨method, url, some (.dict payload)⟩
  (res, [if method = "POST" then "create" else "update"])

/-- `IncusNetworkPeerManagement._absent`.  In non-check mode the handler
returns the DELETE's result directly, so the `self.actions.append('delete')`
line is reached only in check mode. -/
def peerAbsent (beforeState : String) (checkMode : Bool) (network name : String) :
    Option Call × List String :=
  if beforeState = "absent" then (none, [])
  else if !checkMode then (some ⟨"DELETE", peerGetUrl network name, none⟩, [])
  else (none, ["delete"])

/-- Peer action dispatch. -/
def peerAction (state beforeState : String) (checkMode : Bool) (network name : String)
    (config description : Value) (target_network : String)
    (target_project target_integration type_ : Option String) :
    Except PyErr (Option Call × List String) :=
  match state with
  | "present" => .ok (peerPresent beforeState checkMode network name config description
      target_network target_project target_integration type_)
  | "absent" => .ok (peerAbsent beforeState checkMode network name)
  | _ => .error (.exn ("KeyError: " ++ state))

/-- `IncusNetworkPeerManagement.run`; the third component is the final
content of the internal `self.actions` list. -/
def peerRun (checkMode : Bool) (state network name : String)
    (config description : Value) (target_network : String)
    (target_project target_integration type_ : Option String)
    (fetch1 fetch2 writeRes : Except String Response) :
    RunOutcome × List Call × List String :=
  match fetch1 with
  | .error msg => (.fail msg false {}, [], [])
  | .ok cur1 =>
    match incusToModuleState cur1 with
    | .error e => (.crash e, [], [])
    | .ok st1 =>
      let diff1 : Diff :=
        { before := { resource := some cur1.metadata, state := some st1 }, after := {} }
      match peerAction state st1 checkMode network name config description
          target_network target_project target_integration type_ with
      | .error e => (.crash e, [], [])
      | .ok (optCall, acts) =>
        let writes := optCall.toList
        match optCall, writeRes with
        | some _, .error msg => (.fail msg false diff1, writes, [])
        | _, _ =>
          match fetch2 with
          | .error msg => (.fail msg false diff1, writes, acts)
          | .ok cur2 =>
            match incusToModuleState cur2 with
            | .error e => (.crash e, writes, acts)
            | .ok st2 =>
              let diff2 : Diff :=
                { diff1 with after := { resource := some cur2.metadata, state := some st2 } }
              (.exit (if cur1.metadata = cur2.metadata then false else true)
                 st1 diff2 cur2.metadata, writes, acts)
theorem runReconcile_exit_iff (action : String → Except PyErr (Option Call))
    (f1 f2 w : Except String Response) (c : Bool) (st : String) (d : Diff)
    (r : Value) (ws : List Call)
    (h : runReconcile action f1 f2 w = (.exit c st d r, ws))
    (b a : Value) (hb : d.before.resource = some b) (ha : d.after.resource = some a) :
    c = true ↔ b ≠ a := by
  unfold runReconcile at h
  repeat' split at h
  all_goals simp_all
  all_goals
    obtain ⟨⟨hc, hst2, hd, hr⟩, hw⟩ := h
  all_goals subst hd
  all_goals simp_all

theorem runReconcile_same_fetch_unchanged (action : String → Except PyErr (Option Call))
    (f1 w : Except String Response) (c : Bool) (st : String) (d : Diff)
    (r : Value) (ws : List Call)
    (h : runReconcile action f1 f1 w = (.exit c st d r, ws)) : c = false := by
  unfold runReconcile at h
  repeat' split at h
  all_goals simp_all

theorem runReconcile_no_write (action : String → Except PyErr (Option Call))
    (hA : ∀ st oc, action st = .ok oc → oc = none)
    (f1 f2 w : Except String Response) :
    (runReconcile action f1 f2 w).2 = [] := by
  unfold runReconcile
  rcases f1 with msg | cur1
  · rfl
  rcases hcl : incusToModuleState cur1 with e | st1
  · simp [hcl]
  rcases hact : action st1 with e | oc
  · simp [hcl, hact]
  have hoc := hA st1 oc hact
  subst hoc
  simp only [hcl, hact]
  rcases f2 with msg2 | cur2
  · simp
  rcases hcl2 : incusToModuleState cur2 with e | st2 <;> simp [hcl2]

theorem aclAction_checkMode (state st name : String) (cfg desc egr ing : Value)
    (oc : Option Call) (h : aclAction state st true name cfg desc egr ing = .ok oc) :
    oc = none := by
  unfold aclAction aclPresent aclAbsent at h
  repeat' split at h
  all_goals simp_all [pure, Except.pure, bind, Except.bind]

theorem lbAction_checkMode (state st network listen_address : String)
    (desc cfg bk : Value) (ports : List (List (String × Value)))
    (oc : Option Call)
    (h : lbAction state st true network listen_address desc cfg bk ports = .ok oc) :
    oc = none := by
  unfold lbAction lbPresent lbAbsent at h
  rcases hp : ports.mapM lbCoercePort with e | qs
  all_goals repeat' split at h
  all_goals simp_all [pure, Except.pure, bind, Except.bind]

/-- **C1**: for every invocation of `run()` that completes without a fatal
error (shown for the ACL and zone modules), the reported `changed` flag is
true iff the resource metadata fetched before the action differs
structurally from the resource metadata fetched after the action,
independent of whether a write request was issued. -/
theorem C1_changed_iff_metadata_diff
    (checkMode : Bool) (state name : String)
    (config description egress ingress : Value)
    (f1 f2 w : Except String Response)
    (c : Bool) (st : String) (d : Diff) (r : Value) (ws : List Call)
    (b a : Value)
    (hb : d.before.resource = some b) (ha : d.after.resource = some a) :
    (aclRun checkMode state name config description egress ingress f1 f2 w
        = (.exit c st d r, ws) → (c = true ↔ b ≠ a)) ∧
    (zoneRun checkMode state name description config f1 f2 w
        = (.exit c st d r, ws) → (c = true ↔ b ≠ a)) :=
  ⟨fun h => runReconcile_exit_iff _ f1 f2 w c st d r ws h b a hb ha,
   fun h => runReconcile_exit_iff _ f1 f2 w c st d r ws h b a hb ha⟩

theorem C1_changed_iff_metadata_diff_witness :
    (true = true ↔ Value.null ≠ Value.dict [("x", .int 1)]) ∧
    (true = true ↔ Value.null ≠ Value.dict [("x", .int 1)]) := by
  have h := C1_changed_iff_metadata_diff true "present" "a1"
    (.dict []) .null (.list []) (.list [])
    (.ok ⟨404, 404, .null⟩) (.ok ⟨200, 0, .dict [("x", .int 1)]⟩) (.ok ⟨200, 0, .null⟩)
    true "absent"
    ⟨⟨some .null, some "absent"⟩, ⟨some (.dict [("x", .int 1)]), some "present"⟩⟩
    (.dict [("x", .int 1)]) [] .null (.dict [("x", .int 1)]) rfl rfl
  exact ⟨h.1 (by decide), h.2 (by decide)⟩

/-- **C2**: `_incus_to_module_state` returns `"present"` exactly when
`status_code = 200`, returns `"absent"` exactly when `status_code ≠ 200`
and `error_code = 404`, and raises the plain `Exception("unknown resource
state")` exactly in every other status/error combination. -/
theorem C2_classification (r : Response) :
    (incusToModuleState r = .ok "present" ↔ r.status_code = 200) ∧
    (incusToModuleState r = .ok "absent" ↔ (r.status_code ≠ 200 ∧ r.error_code = 404)) ∧
    (incusToModuleState r = .error (.exn "unknown resource state") ↔
      (r.status_code ≠ 200 ∧ r.error_code ≠ 404)) := by
  unfold incusToModuleState
  constructor
  · split <;> [simp_all; (split <;> simp_all)]
  constructor
  · split <;> [simp_all; (split <;> simp_all)]
  · split <;> [simp_all; (split <;> simp_all)]

/-- **C3**: with check mode on, no write call is ever issued to the
transport (ACL and load-balancer modules), regardless of target state and
before-state; and when the two reads return the same response and `run`
exits, `changed` is false. -/
theorem C3_check_mode_purity
    (state name network listen_address : String)
    (config description egress ingress backends : Value)
    (ports : List (List (String × Value)))
    (f1 f2 w : Except String Response)
    (c1 c2 : Bool) (st1 st2 : String) (d1 d2 : Diff) (r1 r2 : Value)
    (ws1 ws2 : List Call) :
    ((aclRun true state name config description egress ingress f1 f2 w).2 = []) ∧
    ((lbRun true state network listen_address description config backends ports f1 f2 w).2
        = []) ∧
    (aclRun true state name config description egress ingress f1 f1 w
        = (.exit c1 st1 d1 r1, ws1) → c1 = false) ∧
    (lbRun true state network listen_address description config backends ports f1 f1 w
        = (.exit c2 st2 d2 r2, ws2) → c2 = false) := by
  refine ⟨runReconcile_no_write _ ?_ f1 f2 w, runReconcile_no_write _ ?_ f1 f2 w,
    fun h => runReconcile_same_fetch_unchanged _ f1 w c1 st1 d1 r1 ws1 h,
    fun h => runReconcile_same_fetch_unchanged _ f1 w c2 st2 d2 r2 ws2 h⟩
  · exact fun st oc h =>
      aclAction_checkMode state st name config description egress ingress oc h
  · exact fun st oc h =>
      lbAction_checkMode state st network listen_address description config backends ports oc h

theorem C3_check_mode_purity_witness :
    ([] : List Call) = [] ∧ ([] : List Call) = [] ∧ false = false ∧ false = false := by
  have h := C3_check_mode_purity "present" "a1" "n0" "10.0.0.1"
    (.dict []) .null (.list []) (.list []) (.list []) []
    (.ok ⟨200, 0, .dict [("k", .str "v")]⟩) (.ok ⟨200, 0, .dict [("k", .str "v")]⟩)
    (.ok ⟨200, 0, .null⟩)
    false false "present" "present"
    ⟨⟨some (.dict [("k", .str "v")]), some "present"⟩,
     ⟨some (.dict [("k", .str "v")]), some "present"⟩⟩
    ⟨⟨some (.dict [("k", .str "v")]), some "present"⟩,
     ⟨some (.dict [("k", .str "v")]), some "present"⟩⟩
    (.dict [("k", .str "v")]) (.dict [("k", .str "v")]) [] []
  exact ⟨h.1, h.2.1, h.2.2.1 (by decide), h.2.2.2 (by decide)⟩

/-- **C4, counterexample**: a fetch whose response is neither status 200 nor
error 404 (a protocol error) makes `run` raise the plain
`Exception("unknown resource state")`, which the `except
IncusClientException` handler does not catch: the outcome is an uncaught
crash, not the structured `fail_json` record. -/
theorem C4_counterexample :
    (aclRun false "present" "a1" (.dict []) .null (.list []) (.list [])
        (.ok ⟨500, 500, .null⟩) (.ok ⟨200, 0, .null⟩) (.ok ⟨200, 0, .null⟩)).1
      = .crash (.exn "unknown resource state") := by decide

/-- **C4, amended**: every `IncusClientException`-fatal condition — a
transport failure on either fetch, or rejection of the write — is surfaced
as a single structured `fail_json` record with the message, `changed=false`
and the partial diff collected so far; protocol errors, by contrast, escape
the handler (see the counterexample). -/
theorem C4_client_errors_structured
    (checkMode : Bool) (state name : String) (cfg desc egr ing : Value)
    (msg : String) (f2 : Except String Response) (wr : Response)
    (cur : Response) (st1 : String) (optCall : Option Call)
    (hst : incusToModuleState cur = .ok st1)
    (hact : aclAction state st1 checkMode name cfg desc egr ing = .ok optCall) :
    (aclRun checkMode state name cfg desc egr ing (.error msg) f2 (.ok wr)
       = (.fail msg false {}, [])) ∧
    (optCall.isSome →
       aclRun checkMode state name cfg desc egr ing (.ok cur) f2 (.error msg)
         = (.fail msg false ⟨⟨some cur.metadata, some st1⟩, ⟨none, none⟩⟩,
            optCall.toList)) ∧
    (aclRun checkMode state name cfg desc egr ing (.ok cur) (.error msg) (.ok wr)
       = (.fail msg false ⟨⟨some cur.metadata, some st1⟩, ⟨none, none⟩⟩,
          optCall.toList)) := by
  refine ⟨rfl, fun hsome => ?_, ?_⟩
  · rcases optCall with _ | c
    · simp at hsome
    · unfold aclRun runReconcile
      simp [hst, hact]
  · unfold aclRun runReconcile
    rcases optCall with _ | c <;> simp [hst, hact]

theorem C4_client_errors_structured_witness :
    aclRun false "present" "a1" (.dict []) .null (.list []) (.list [])
        (.ok ⟨200, 0, .dict []⟩) (.ok ⟨404, 404, .null⟩) (.error "boom")
      = (.fail "boom" false ⟨⟨some (.dict []), some "present"⟩, ⟨none, none⟩⟩,
         [⟨"PATCH", "/1.0/network-acls/a1", some (.dict [("name", .str "a1"),
            ("config", .dict []), ("description", .null), ("egress", .list []),
            ("ingress", .list [])])⟩]) :=
  (C4_client_errors_structured false "present" "a1" (.dict []) .null (.list []) (.list [])
    "boom" (.ok ⟨404, 404, .null⟩) ⟨200, 0, .null⟩ ⟨200, 0, .dict []⟩ "present"
    (some ⟨"PATCH", "/1.0/network-acls/a1", some (.dict [("name", .str "a1"),
      ("config", .dict []), ("description", .null), ("egress", .list []),
      ("ingress", .list [])])⟩) rfl rfl).2.1 (by decide)

/-- **C5**: when the single write raises an `IncusClientException`, the
reconcile aborts immediately: the outcome does not depend on the second
fetch (none is performed), and the invocation fails with `changed=false`
and a diff whose `after` side is still empty. -/
theorem C5_write_rejection_aborts
    (checkMode : Bool) (state name : String) (cfg desc egr ing : Value)
    (msg : String) (cur : Response) (st1 : String) (c : Call)
    (hst : incusToModuleState cur = .ok st1)
    (hact : aclAction state st1 checkMode name cfg desc egr ing = .ok (some c)) :
    ∀ f2 : Except String Response,
      aclRun checkMode state name cfg desc egr ing (.ok cur) f2 (.error msg)
        = (.fail msg false ⟨⟨some cur.metadata, some st1⟩, ⟨none, none⟩⟩, [c]) := by
  intro f2
  unfold aclRun runReconcile
  simp [hst, hact]

theorem C5_write_rejection_aborts_witness :
    aclRun false "present" "a1" (.dict []) .null (.list []) (.list [])
        (.ok ⟨404, 404, .null⟩) (.ok ⟨200, 0, .dict []⟩) (.error "bad request")
      = (.fail "bad request" false ⟨⟨some .null, some "absent"⟩, ⟨none, none⟩⟩,
         [⟨"POST", "/1.0/network-acls", some (.dict [("name", .str "a1"),
            ("config", .dict []), ("description", .null), ("egress", .list []),
            ("ingress", .list [])])⟩]) :=
  C5_write_rejection_aborts false "present" "a1" (.dict []) .null (.list []) (.list [])
    "bad request" ⟨404, 404, .null⟩ "absent"
    ⟨"POST", "/1.0/network-acls", some (.dict [("name", .str "a1"),
      ("config", .dict []), ("description", .null), ("egress", .list []),
      ("ingress", .list [])])⟩ rfl rfl (.ok ⟨200, 0, .dict []⟩)

/-- **C7**: converging to `absent` when the first fetch classifies the
resource as already absent (error 404) issues no write of any kind (shown
for any second fetch), and — the remote state being untouched, so the
second read returns the same response — exits with `changed=false` and
`old_state="absent"` (ACL and zone modules). -/
theorem C7_absent_idempotent
    (checkMode : Bool) (name : String) (cfg desc egr ing : Value)
    (cur : Response) (w : Except String Response)
    (h200 : cur.status_code ≠ 200) (h404 : cur.error_code = 404) :
    (aclRun checkMode "absent" name cfg desc egr ing (.ok cur) (.ok cur) w
       = (.exit false "absent"
           ⟨⟨some cur.metadata, some "absent"⟩, ⟨some cur.metadata, some "absent"⟩⟩
           cur.metadata, [])) ∧
    (zoneRun checkMode "absent" name desc cfg (.ok cur) (.ok cur) w
       = (.exit false "absent"
           ⟨⟨some cur.metadata, some "absent"⟩, ⟨some cur.metadata, some "absent"⟩⟩
           cur.metadata, [])) ∧
    (∀ f2, (aclRun checkMode "absent" name cfg desc egr ing (.ok cur) f2 w).2 = []) ∧
    (∀ f2, (zoneRun checkMode "absent" name desc cfg (.ok cur) f2 w).2 = []) := by
  have hcl : incusToModuleState cur = .ok "absent" := by
    unfold incusToModuleState
    simp [h200, h404]
  refine ⟨?_, ?_, fun f2 => ?_, fun f2 => ?_⟩
  · unfold aclRun runReconcile aclAction aclAbsent
    simp [hcl]
  · unfold zoneRun runReconcile zoneAction zoneAbsent
    simp [hcl]
  · unfold aclRun runReconcile aclAction aclAbsent
    simp only [hcl]
    rcases f2 with m | cur2
    · simp
    · rcases hcl2 : incusToModuleState cur2 with e | st2 <;> simp [hcl2]
  · unfold zoneRun runReconcile zoneAction zoneAbsent
    simp only [hcl]
    rcases f2 with m | cur2
    · simp
    · rcases hcl2 : incusToModuleState cur2 with e | st2 <;> simp [hcl2]

theorem C7_absent_idempotent_witness :
    aclRun true "absent" "a1" (.dict []) .null (.list []) (.list [])
        (.ok ⟨404, 404, .null⟩) (.ok ⟨404, 404, .null⟩) (.ok ⟨200, 0, .null⟩)
      = (.exit false "absent" ⟨⟨some .null, some "absent"⟩, ⟨some .null, some "absent"⟩⟩
          .null, []) :=
  (C7_absent_idempotent true "a1" (.dict []) .null (.list []) (.list [])
    ⟨404, 404, .null⟩ (.ok ⟨200, 0, .null⟩) (by decide) rfl).1

/-- **C6**: the forward module's URL surface evaluated at a concrete
invocation (`network="n0"`, `listen_address="10.0.0.1"`): the fetch reads
the collection path `/1.0/networks/n0/forwards` (not the identity path
`/1.0/networks/n0/forwards/10.0.0.1`), and the create and delete writes go
to the `/1.0/network/...` (singular) path family instead of
`/1.0/networks/...`. -/
theorem C6_forward_url_surface :
    forwardGetUrl "n0" = "/1.0/networks/n0/forwards" ∧
    forwardPostUrl "n0" = "/1.0/network/n0/forwards" ∧
    forwardItemWriteUrl "n0" "10.0.0.1" = "/1.0/network/n0/forwards/10.0.0.1" ∧
    (forwardRun false "present" "n0" "10.0.0.1" .null .null .null
        (.ok ⟨404, 404, .null⟩) (.ok ⟨404, 404, .null⟩) (.ok ⟨200, 0, .null⟩)).2
      = [⟨"POST", "/1.0/network/n0/forwards", some (.dict [
           ("listen_address", .str "10.0.0.1"), ("description", .null),
           ("config", .dict []), ("ports", .list [])])⟩] ∧
    (forwardRun false "absent" "n0" "10.0.0.1" .null .null .null
        (.ok ⟨200, 0, .dict []⟩) (.ok ⟨404, 404, .null⟩) (.ok ⟨200, 0, .null⟩)).2
      = [⟨"DELETE", "/1.0/network/n0/forwards/10.0.0.1", none⟩] :=
  ⟨rfl, rfl, rfl, by decide, by decide⟩

theorem dictGet_dictSet_self (k : String) (v : Value) (d : List (String × Value)) :
    dictGet k (dictSet k v d) = some v := by
  induction d with
  | nil => simp [dictGet, dictSet]
  | cons hd tl ih =>
    obtain ⟨k2, w⟩ := hd
    by_cases hk : k2 = k <;> simp [dictGet, dictSet, hk, ih]

theorem dictGet_dictSet_ne (k k2 : String) (v : Value) (d : List (String × Value))
    (hne : k2 ≠ k) : dictGet k2 (dictSet k v d) = dictGet k2 d := by
  have hkk : k ≠ k2 := fun h => hne h.symm
  induction d with
  | nil => simp [dictGet, dictSet, hkk]
  | cons hd tl ih =>
    obtain ⟨k3, w⟩ := hd
    by_cases h3 : k3 = k
    · subst h3
      simp [dictGet, dictSet, hkk]
    · simp [dictGet, dictSet, h3, ih]

theorem mapM_lbCoercePort_ok (ports : List (List (String × Value)))
    (h : ∀ p ∈ ports, (dictGet "listen_port" p).isSome) :
    ∃ qs, ports.mapM lbCoercePort = .ok qs ∧
      List.Forall₂ (fun p q =>
        (∀ v, dictGet "listen_port" p = some v →
           dictGet "listen_port" q = some (.str (pyStr v))) ∧
        (∀ k, k ≠ "listen_port" → dictGet k q = dictGet k p)) ports qs := by
  induction ports with
  | nil => exact ⟨[], rfl, .nil⟩
  | cons p ps ih =>
    have hp := h p (by simp)
    rcases hv : dictGet "listen_port" p with _ | v
    · rw [hv] at hp
      simp at hp
    obtain ⟨qs, hqs, hrel⟩ := ih (fun q hq => h q (by simp [hq]))
    refine ⟨dictSet "listen_port" (.str (pyStr v)) p :: qs, ?_, ?_⟩
    · have hqs2 : List.mapM.loop lbCoercePort ps [] = .ok qs := hqs
      rw [List.mapM_cons]
      simp [lbCoercePort, hv, hqs, hqs2, bind, Except.bind, pure, Except.pure]
    · refine .cons ⟨fun v2 hv2 => ?_, fun k hk => dictGet_dictSet_ne _ _ _ _ hk⟩ hrel
      rw [hv] at hv2
      cases hv2
      exact dictGet_dictSet_self _ _ _

/-- **C8**: in the load-balancer `_present` payload every element of
`ports` has its `listen_port` value replaced by its string form
`str(listen_port)` with all other keys passed through unchanged, while the
forward `_present` payload carries the `ports` list unmodified. -/
theorem C8_port_coercion
    (network listen_address : String) (desc cfg bk : Value)
    (ports : List (List (String × Value)))
    (h : ∀ p ∈ ports, (dictGet "listen_port" p).isSome) :
    (∃ qs, ports.mapM lbCoercePort = .ok qs ∧
       List.Forall₂ (fun p q =>
         (∀ v, dictGet "listen_port" p = some v →
            dictGet "listen_port" q = some (.str (pyStr v))) ∧
         (∀ k, k ≠ "listen_port" → dictGet k q = dictGet k p)) ports qs ∧
       lbPresent "absent" false network listen_address desc cfg bk ports
         = .ok (some ⟨"POST", lbPostUrl network, some (.dict [
             ("listen_address", .str listen_address), ("description", desc),
             ("network", .str network), ("config", cfg), ("backends", bk),
             ("ports", .list (qs.map Value.dict))])⟩)) ∧
    (∀ l : List Value,
       forwardPresent "absent" false network listen_address desc cfg (.list l)
         = .ok (some ⟨"POST", forwardPostUrl network, some (.dict [
             ("listen_address", .str listen_address), ("description", desc),
             ("config", pyOr cfg (.dict [])), ("ports", .list l)])⟩)) := by
  constructor
  · obtain ⟨qs, hqs, hrel⟩ := mapM_lbCoercePort_ok ports h
    refine ⟨qs, hqs, hrel, ?_⟩
    have hqs2 : List.mapM.loop lbCoercePort ports [] = .ok qs := hqs
    unfold lbPresent
    simp [hqs, hqs2, bind, Except.bind, pure, Except.pure]
  · intro l
    unfold forwardPresent
    rcases l with _ | ⟨v, l⟩ <;>
      simp [pyOr, pyTruthy, bind, Except.bind, pure, Except.pure]

theorem C8_port_coercion_witness :
    (∃ qs, [[("listen_port", Value.int 80), ("target_port", Value.str "90")]].mapM
        lbCoercePort = .ok qs ∧
      List.Forall₂ (fun p q =>
        (∀ v, dictGet "listen_port" p = some v →
           dictGet "listen_port" q = some (.str (pyStr v))) ∧
        (∀ k, k ≠ "listen_port" → dictGet k q = dictGet k p))
        [[("listen_port", Value.int 80), ("target_port", Value.str "90")]] qs ∧
      lbPresent "absent" false "n0" "10.0.0.1" .null (.dict []) (.list [])
          [[("listen_port", Value.int 80), ("target_port", Value.str "90")]]
        = .ok (some ⟨"POST", lbPostUrl "n0", some (.dict [
            ("listen_address", .str "10.0.0.1"), ("description", .null),
            ("network", .str "n0"), ("config", .dict []), ("backends", .list []),
            ("ports", .list (qs.map Value.dict))])⟩)) ∧
    (∀ l : List Value,
       forwardPresent "absent" false "n0" "10.0.0.1" .null (.dict []) (.list l)
         = .ok (some ⟨"POST", forwardPostUrl "n0", some (.dict [
             ("listen_address", .str "10.0.0.1"), ("description", .null),
             ("config", pyOr (.dict []) (.dict [])), ("ports", .list l)])⟩)) :=
  C8_port_coercion "n0" "10.0.0.1" .null (.dict []) (.list [])
    [[("listen_port", Value.int 80), ("target_port", Value.str "90")]] (by decide)

/-- **C9, counterexample**: in check mode with the peer absent and target
`present`, the `_present` handler returns `None` (no write is issued) but
it still appends `'create'` to the internal `self.actions` log, refuting
the claim that the present path records no intended action. -/
theorem C9_counterexample :
    (peerRun true "present" "n0" "p0" (.dict []) .null "tn" none none none
        (.ok ⟨404, 404, .null⟩) (.ok ⟨404, 404, .null⟩) (.ok ⟨200, 0, .null⟩)).2
      = ([], ["create"]) := by decide

/-- **C9, amended**: in check mode the peer module's converge-to-absent
path (resource present) records `'delete'` in the internal action log; the
converge-to-present path likewise issues no write and its handler returns
`None`, but it does record an intended action — `'update'` when the
resource was present, `'create'` when it was absent. -/
theorem peerRun_checkMode_components
    (state network name : String) (cfg desc : Value) (tn : String)
    (tp ti ty : Option String) (cur : Response) (st1 : String)
    (f2 w : Except String Response) (acts : List String)
    (hst : incusToModuleState cur = .ok st1)
    (hact : peerAction state st1 true network name cfg desc tn tp ti ty
      = .ok (none, acts)) :
    (peerRun true state network name cfg desc tn tp ti ty (.ok cur) f2 w).2
      = ([], acts) := by
  unfold peerRun
  simp only [hst, hact]
  rcases f2 with m | cur2
  · simp
  · rcases hcl2 : incusToModuleState cur2 with e | st2 <;> simp [hcl2]

theorem C9_check_mode_action_log
    (network name : String) (cfg desc : Value) (tn : String)
    (tp ti ty : Option String) (cur : Response) (st1 : String)
    (f2 w : Except String Response)
    (hst : incusToModuleState cur = .ok st1) :
    ((peerRun true "present" network name cfg desc tn tp ti ty (.ok cur) f2 w).2
       = ([], [if st1 = "present" then "update" else "create"])) ∧
    (st1 = "present" →
      (peerRun true "absent" network name cfg desc tn tp ti ty (.ok cur) f2 w).2
        = ([], ["delete"])) := by
  constructor
  · by_cases hp : st1 = "present"
    · subst hp
      have h := peerRun_checkMode_components "present" network name cfg desc tn tp ti ty
        cur "present" f2 w ["update"] hst (by unfold peerAction peerPresent; simp)
      simpa using h
    · have h := peerRun_checkMode_components "present" network name cfg desc tn tp ti ty
        cur st1 f2 w ["create"] hst (by unfold peerAction peerPresent; simp [hp])
      simpa [hp] using h
  · intro hp
    exact peerRun_checkMode_components "absent" network name cfg desc tn tp ti ty
      cur st1 f2 w ["delete"] hst (by unfold peerAction peerAbsent; simp [hp])

theorem C9_check_mode_action_log_witness :
    ((peerRun true "present" "n0" "p0" (.dict []) .null "tn" none none none
        (.ok ⟨200, 0, .dict []⟩) (.ok ⟨200, 0, .dict []⟩) (.ok ⟨200, 0, .null⟩)).2
       = ([], ["update"])) ∧
    ((peerRun true "absent" "n0" "p0" (.dict []) .null "tn" none none none
        (.ok ⟨200, 0, .dict []⟩) (.ok ⟨200, 0, .dict []⟩) (.ok ⟨200, 0, .null⟩)).2
       = ([], ["delete"])) := by
  have h := C9_check_mode_action_log "n0" "p0" (.dict []) .null "tn" none none none
    ⟨200, 0, .dict []⟩ "present" (.ok ⟨200, 0, .dict []⟩) (.ok ⟨200, 0, .null⟩) rfl
  exact ⟨by simpa using h.1, h.2 rfl⟩

theorem mapM_lbCoercePort_err (ports : List (List (String × Value)))
    (h : ∃ p ∈ ports, dictGet "listen_port" p = none) :
    ports.mapM lbCoercePort = .error (.exn "KeyError: listen_port") := by
  induction ports with
  | nil => simp at h
  | cons p ps ih =>
    rcases hv : dictGet "listen_port" p with _ | v
    · rw [List.mapM_cons]
      simp [lbCoercePort, hv, bind, Except.bind]
    · obtain ⟨q, hqmem, hqnone⟩ := h
      rcases List.mem_cons.mp hqmem with rfl | hqs
      · rw [hv] at hqnone
        cases hqnone
      · have htl := ih ⟨q, hqs, hqnone⟩
        have htl2 : List.mapM.loop lbCoercePort ps []
            = .error (.exn "KeyError: listen_port") := htl
        rw [List.mapM_cons]
        simp [lbCoercePort, hv, htl, htl2, bind, Except.bind]

/-- **C10**: in the load-balancer module with target `present`, a ports
list containing a mapping without the `listen_port` key makes payload
construction raise `KeyError`, which is not an `IncusClientException`: the
run crashes (uncaught) rather than failing structurally, no write is ever
issued, and this happens under check mode as well (`checkMode` is
arbitrary here), before any write decision. -/
theorem C10_missing_listen_port_crashes
    (checkMode : Bool) (network listen_address : String)
    (desc cfg bk : Value) (ports : List (List (String × Value)))
    (cur : Response) (st1 : String) (f2 w : Except String Response)
    (hst : incusToModuleState cur = .ok st1)
    (hmiss : ∃ p ∈ ports, dictGet "listen_port" p = none) :
    lbRun checkMode "present" network listen_address desc cfg bk ports (.ok cur) f2 w
      = (.crash (.exn "KeyError: listen_port"), []) := by
  have hm := mapM_lbCoercePort_err ports hmiss
  have hm2 : List.mapM.loop lbCoercePort ports []
      = .error (.exn "KeyError: listen_port") := hm
  unfold lbRun runReconcile lbAction lbPresent
  simp [hst, hm, hm2, bind, Except.bind]

theorem C10_missing_listen_port_crashes_witness :
    lbRun true "present" "n0" "10.0.0.1" .null (.dict []) (.list [])
        [[("target_port", .str "80")]]
        (.ok ⟨404, 404, .null⟩) (.ok ⟨404, 404, .null⟩) (.ok ⟨200, 0, .null⟩)
      = (.crash (.exn "KeyError: listen_port"), []) :=
  C10_missing_listen_port_crashes true "n0" "10.0.0.1" .null (.dict []) (.list [])
    [[("target_port", .str "80")]] ⟨404, 404, .null⟩ "absent"
    (.ok ⟨404, 404, .null⟩) (.ok ⟨200, 0, .null⟩) rfl (by decide)
